import Mathlib

/-!
Shallow embedding of the DevSentinel / CodeRoaster VS Code extension
(`extension.ts`, consolidated entry point): severity mapping, the per-command
diagnostic-ledger updates performed by the `devsentinel.review`,
`devsentinel.securityScan` and `devsentinel.complexity` handlers, the
per-command request timeouts, and the quick-fix construction
(`DevSentinelCodeActionProvider.createFix`).

The `vscode.DiagnosticCollection` entry for one document is modelled as a
`List Diagnostic` (the collection's value for `document.uri`); each command
handler becomes a function from the old list and the backend response to the
new list.  JavaScript string/number falsiness (`x || dflt`) is modelled
explicitly.
-/

set_option exponentiation.threshold 1100
set_option maxRecDepth 10000

namespace DevSentinel

/-- `vscode.DiagnosticSeverity`. -/
inductive Severity where
  | error
  | warning
  | info
  | hint
deriving DecidableEq, Repr

/-- `mapSeverity` (extension.ts): maps the wire severity string to a
`vscode.DiagnosticSeverity`, defaulting to `Warning`. -/
def mapSeverity (severity : String) : Severity :=
  match severity with
  | "error" => Severity.error
  | "warning" => Severity.warning
  | "info" => Severity.info
  | "hint" => Severity.hint
  | _ => Severity.warning

/-- The exact integer value of the JavaScript float `Number.MAX_VALUE`,
`(2^53 - 1) * 2^971`, used by the handlers as the end column of a
full-line range. -/
def jsNumberMaxValue : Nat := (2 ^ 53 - 1) * 2 ^ 971

/-- A `vscode.Range`; the handlers only ever build single-line ranges
`new vscode.Range(lineIndex, 0, lineIndex, Number.MAX_VALUE)` but the type
carries all four coordinates like the API does.  Lines are `Int` because the
handlers compute `line_number - 1` with JavaScript number arithmetic. -/
structure Range where
  startLine : Int
  startChar : Nat
  endLine : Int
  endChar : Nat
deriving DecidableEq, Repr

/-- `new vscode.Range(lineIndex, 0, lineIndex, Number.MAX_VALUE)`. -/
def fullLineRange (lineIndex : Int) : Range :=
  { startLine := lineIndex, startChar := 0, endLine := lineIndex, endChar := jsNumberMaxValue }

/-- A `vscode.Diagnostic` as the handlers populate it: range, message,
severity, the `source` tag, and the `code` field (which the extension uses to
stash the replacement text `fixed_code`; `none` models leaving it
`undefined`). -/
structure Diagnostic where
  range : Range
  message : String
  severity : Severity
  source : Option String
  code : Option String
deriving DecidableEq, Repr

/-- One element of the `comments` array of a `/review` or `/security-scan`
response: `{line_number, severity, suggestion, fixed_code}`.  `Option` models
fields that may be absent from the JSON. -/
structure ReviewComment where
  line_number : Int
  severity : Option String
  suggestion : String
  fixed_code : Option String
deriving DecidableEq, Repr

/-- One element of the `functions` array of a `/complexity` response:
`{name, line_number, complexity, is_complex}`. -/
structure FunctionInfo where
  name : String
  line_number : Int
  complexity : Int
  is_complex : Bool
deriving DecidableEq, Repr

/-- JavaScript `v || dflt` for a possibly-absent string: `undefined` and the
empty string are falsy. -/
def jsOrString (v : Option String) (dflt : String) : String :=
  match v with
  | none => dflt
  | some s => if s = "" then dflt else s

/-- JavaScript `v || dflt` for a possibly-absent non-negative number:
`undefined` and `0` are falsy. -/
def jsOrNum (v : Option Nat) (dflt : Nat) : Nat :=
  match v with
  | none => dflt
  | some n => if n = 0 then dflt else n

/-- `needle` occurs as a contiguous sublist of the argument
(JavaScript `String.prototype.includes`, on the character lists). -/
def listIncludes (needle : List Char) : List Char → Bool
  | [] => needle.isEmpty
  | c :: cs => needle.isPrefixOf (c :: cs) || listIncludes needle cs

/-- JavaScript `hay.includes(needle)`. -/
def strIncludes (hay needle : String) : Bool :=
  listIncludes needle.data hay.data

/-- The regular-expression replace `s.replace(/[\r\n]+$/, '')` used by
`createFix`: strip every trailing carriage-return / line-feed character. -/
def stripTrailingNewlines (s : String) : String :=
  String.mk ((s.data.reverse.dropWhile (fun c => c = '\n' || c = '\r')).reverse)

/-- Outcome of one backend call (§3 of the spec): the handler's `try` body
receives a payload, or the `catch` receives a thrown transport error /
timeout (`axios` rejects with `ECONNREFUSED`, another error, or
`ECONNABORTED`). -/
inductive RequestOutcome (α : Type) where
  | success (payload : α)
  | transportFailure (reason : String)
  | timeout
deriving DecidableEq, Repr

/-- Loop body of the `devsentinel.review` handler: the diagnostic built from
one review comment (lines 109-120 of extension.ts). -/
def reviewDiag (review : ReviewComment) : Diagnostic :=
  let lineIndex := review.line_number - 1
  { range := fullLineRange lineIndex
    message := "DevSentinel: " ++ review.suggestion
    severity := mapSeverity (jsOrString review.severity "warning")
    source := some "DevSentinel"
    code := review.fixed_code }

/-- Success path of the `devsentinel.review` handler: the new value of
`diagnosticCollection` for the document.  The handler calls
`diagnosticCollection.set(document.uri, diagnostics)` with only the freshly
built diagnostics, never reading the previous entry, so the old ledger is
discarded wholesale. -/
def reviewSuccess (_ledger : List Diagnostic) (comments : List ReviewComment) :
    List Diagnostic :=
  comments.map reviewDiag

/-- The `devsentinel.review` handler's effect on the document's diagnostics:
on success the collection is replaced, on a thrown error the `catch` block
only reports and leaves the collection alone. -/
def review (ledger : List Diagnostic) (outcome : RequestOutcome (List ReviewComment)) :
    List Diagnostic :=
  match outcome with
  | RequestOutcome.success comments => reviewSuccess ledger comments
  | RequestOutcome.transportFailure _ => ledger
  | RequestOutcome.timeout => ledger

/-- Loop body of the `devsentinel.securityScan` handler: the diagnostic built
from one security comment (lines 209-220 of extension.ts). -/
def securityDiag (review : ReviewComment) : Diagnostic :=
  let lineIndex := review.line_number - 1
  { range := fullLineRange lineIndex
    message := "[SECURITY] DevSentinel: " ++ review.suggestion
    severity := mapSeverity (jsOrString review.severity "error")
    source := some "DevSentinel"
    code := review.fixed_code }

/-- Success path of the `devsentinel.securityScan` handler: keep every
existing diagnostic whose message does not include `[SECURITY]`, then append
the new security diagnostics (`[...kept, ...newDiags]`). -/
def securityScanSuccess (ledger : List Diagnostic) (comments : List ReviewComment) :
    List Diagnostic :=
  let kept := ledger.filter (fun d => !(strIncludes d.message "[SECURITY]"))
  kept ++ comments.map securityDiag

/-- The `devsentinel.securityScan` handler's effect on the document's
diagnostics; the `catch` block never touches the collection. -/
def securityScan (ledger : List Diagnostic)
    (outcome : RequestOutcome (List ReviewComment)) : List Diagnostic :=
  match outcome with
  | RequestOutcome.success comments => securityScanSuccess ledger comments
  | RequestOutcome.transportFailure _ => ledger
  | RequestOutcome.timeout => ledger

/-- Loop body of the `devsentinel.complexity` handler: the diagnostic built
from one complex function (lines 274-284 of extension.ts); the severity is
hard-coded to `Warning` and no `code` is stored. -/
def complexityDiag (threshold : Int) (f : FunctionInfo) : Diagnostic :=
  let lineIndex := f.line_number - 1
  { range := fullLineRange lineIndex
    message := "[COMPLEXITY] DevSentinel: Function \x27" ++ f.name ++
      "\x27 has cyclomatic complexity of " ++ toString f.complexity ++
      " (threshold: " ++ toString threshold ++ ")"
    severity := Severity.warning
    source := some "DevSentinel"
    code := none }

/-- The `/complexity` response body: `{functions, threshold}`. -/
structure ComplexityResponse where
  functions : List FunctionInfo
  threshold : Int
deriving DecidableEq, Repr

/-- Success path of the `devsentinel.complexity` handler: keep every existing
diagnostic whose message does not include `[COMPLEXITY]`, filter the response
functions to those with `is_complex`, and append one diagnostic per complex
function. -/
def complexitySuccess (ledger : List Diagnostic) (resp : ComplexityResponse) :
    List Diagnostic :=
  let kept := ledger.filter (fun d => !(strIncludes d.message "[COMPLEXITY]"))
  let complexFunctions := resp.functions.filter (fun f => f.is_complex)
  kept ++ complexFunctions.map (complexityDiag resp.threshold)

/-- The `devsentinel.complexity` handler's effect on the document's
diagnostics; the `catch` block never touches the collection. -/
def complexity (ledger : List Diagnostic)
    (outcome : RequestOutcome ComplexityResponse) : List Diagnostic :=
  match outcome with
  | RequestOutcome.success resp => complexitySuccess ledger resp
  | RequestOutcome.transportFailure _ => ledger
  | RequestOutcome.timeout => ledger

/-- Timeout passed to `axios.post` by the review handler:
`config.get('requestTimeout') || 90000`, in milliseconds (as a rational,
since JavaScript numbers are not integers). -/
def reviewTimeout (requestTimeout : Option Nat) : ℚ :=
  (jsOrNum requestTimeout 90000 : ℚ)

/-- Timeout passed to `axios.post` by the roast handler:
`config.get('requestTimeout') || 60000`. -/
def roastTimeout (requestTimeout : Option Nat) : ℚ :=
  (jsOrNum requestTimeout 60000 : ℚ)

/-- Timeout passed to `axios.post` by the security-scan handler:
`(config.get('requestTimeout') || 90000) * 1.5`. -/
def securityScanTimeout (requestTimeout : Option Nat) : ℚ :=
  (jsOrNum requestTimeout 90000 : ℚ) * (3 / 2 : ℚ)

/-- Timeout passed to `axios.post` by the complexity handler:
`config.get('requestTimeout') || 60000`. -/
def complexityTimeout (requestTimeout : Option Nat) : ℚ :=
  (jsOrNum requestTimeout 60000 : ℚ)

/-- A quick-fix produced by `DevSentinelCodeActionProvider`: title, the
optional workspace edit (a range to replace and the replacement text), the
attached diagnostics and the preferred flag. -/
structure CodeAction where
  title : String
  edit : Option (Range × String)
  diagnostics : List Diagnostic
  isPreferred : Bool
deriving DecidableEq, Repr

/-- `DevSentinelCodeActionProvider.createFix`: reads the stashed replacement
from `diagnostic.code`; only when that value is truthy (present and
non-empty) does it build an edit, replacing `diagnostic.range` with the
replacement stripped of trailing newline characters. -/
def createFix (diagnostic : Diagnostic) : CodeAction :=
  let fixedCode := diagnostic.code
  let edit :=
    match fixedCode with
    | some s => if s = "" then none else some (diagnostic.range, stripTrailingNewlines s)
    | none => none
  { title := "Apply Fix: " ++ diagnostic.message
    edit := edit
    diagnostics := [diagnostic]
    isPreferred := true }

/-- A diagnostic belongs to the security category of the ledger exactly when
its message includes the `[SECURITY]` tag (this is how the security-scan
handler decides eviction). -/
def isSecurityTagged (d : Diagnostic) : Bool :=
  strIncludes d.message "[SECURITY]"

/-- A diagnostic belongs to the complexity category of the ledger exactly
when its message includes the `[COMPLEXITY]` tag (this is how the complexity
handler decides eviction). -/
def isComplexityTagged (d : Diagnostic) : Bool :=
  strIncludes d.message "[COMPLEXITY]"

/-- C1 counterexample: with C1 = plain and C2 = security, running the review
handler does not leave the security entry of the ledger unchanged: a security
diagnostic present before a plain review run is gone afterwards, because the
review handler replaces the whole collection. -/
theorem review_run_evicts_security_entry :
    securityDiag ⟨3, some "error", "SQL injection", none⟩ ∈
      securityScanSuccess [] [⟨3, some "error", "SQL injection", none⟩] ∧
    securityDiag ⟨3, some "error", "SQL injection", none⟩ ∉
      review (securityScanSuccess [] [⟨3, some "error", "SQL injection", none⟩])
        (RequestOutcome.success [⟨1, none, "use const", none⟩]) := by
  decide

/-- C1 (amended): the security-scan and complexity handlers are
category-scoped: each keeps the existing entries whose message lacks its tag,
byte-for-byte and in order, and appends its new diagnostics; the review
handler instead replaces the whole ledger, its result not depending on the
previous contents at all. -/
theorem category_scoped_eviction_security_complexity
    (ledger : List Diagnostic) (comments : List ReviewComment)
    (resp : ComplexityResponse) :
    securityScanSuccess ledger comments =
      ledger.filter (fun d => !(isSecurityTagged d)) ++ securityScanSuccess [] comments ∧
    complexitySuccess ledger resp =
      ledger.filter (fun d => !(isComplexityTagged d)) ++ complexitySuccess [] resp ∧
    reviewSuccess ledger comments = reviewSuccess [] comments := by
  refine ⟨?_, ?_, rfl⟩ <;>
    simp [securityScanSuccess, complexitySuccess, isSecurityTagged, isComplexityTagged]

/-- C2: when the backend call throws (transport failure) or times out, the
catch block of each handler leaves the diagnostic ledger exactly as it was. -/
theorem failure_outcome_preserves_ledger (ledger : List Diagnostic) (reason : String) :
    review ledger (RequestOutcome.transportFailure reason) = ledger ∧
    review ledger RequestOutcome.timeout = ledger ∧
    securityScan ledger (RequestOutcome.transportFailure reason) = ledger ∧
    securityScan ledger RequestOutcome.timeout = ledger ∧
    complexity ledger (RequestOutcome.transportFailure reason) = ledger ∧
    complexity ledger RequestOutcome.timeout = ledger :=
  ⟨rfl, rfl, rfl, rfl, rfl, rfl⟩

/-- C3: a successful response with an empty result list clears the handler's
category: an empty review clears the entire collection (hence zero plain
entries), an empty security scan leaves no [SECURITY]-tagged entry, and an
empty complexity run leaves no [COMPLEXITY]-tagged entry; each is an ordinary
success, not an error. -/
theorem empty_result_clears_category (ledger : List Diagnostic) (thr : Int) :
    reviewSuccess ledger [] = [] ∧
    (∀ d ∈ securityScanSuccess ledger [], isSecurityTagged d = false) ∧
    (∀ d ∈ complexitySuccess ledger ⟨[], thr⟩, isComplexityTagged d = false) := by
  refine ⟨rfl, ?_, ?_⟩ <;> intro d hd
  · simp [securityScanSuccess, List.mem_filter] at hd
    simpa [isSecurityTagged] using hd.2
  · simp [complexitySuccess, List.mem_filter] at hd
    simpa [isComplexityTagged] using hd.2

/-- C3 witness: a plain diagnostic survives an empty security scan, and the
theorem instantiated at it yields that it carries no [SECURITY] tag. -/
theorem empty_result_clears_category_witness :
    reviewDiag ⟨2, none, "use const", none⟩ ∈
      securityScanSuccess [reviewDiag ⟨2, none, "use const", none⟩] [] ∧
    isSecurityTagged (reviewDiag ⟨2, none, "use const", none⟩) = false :=
  ⟨by decide,
   (empty_result_clears_category [reviewDiag ⟨2, none, "use const", none⟩] 0).2.1 _ (by decide)⟩

/-- C4: review ingestion builds exactly one diagnostic per comment, anchored
at the 1-based wire line_number minus one (converted exactly once), with the
suggestion in the message and fixed_code stashed as the replacement; in
particular line_number 5 anchors at line index 4 with message containing
"avoid eval" and replacement safeEval(x), as a plain (untagged) entry. -/
theorem review_ingestion_converts_line_number_once
    (ledger : List Diagnostic) (c : ReviewComment) :
    reviewSuccess ledger [c] = [reviewDiag c] ∧
    (reviewDiag c).range.startLine = c.line_number - 1 ∧
    (reviewDiag c).range.endLine = c.line_number - 1 ∧
    (reviewDiag c).message = "DevSentinel: " ++ c.suggestion ∧
    (reviewDiag c).code = c.fixed_code ∧
    (reviewDiag ⟨5, some "error", "avoid eval", some "safeEval(x)"⟩).range.startLine = 4 ∧
    strIncludes (reviewDiag ⟨5, some "error", "avoid eval", some "safeEval(x)"⟩).message
      "avoid eval" = true ∧
    (reviewDiag ⟨5, some "error", "avoid eval", some "safeEval(x)"⟩).code = some "safeEval(x)" ∧
    (reviewDiag ⟨5, some "error", "avoid eval", some "safeEval(x)"⟩).severity = Severity.error ∧
    isSecurityTagged (reviewDiag ⟨5, some "error", "avoid eval", some "safeEval(x)"⟩) = false ∧
    isComplexityTagged (reviewDiag ⟨5, some "error", "avoid eval", some "safeEval(x)"⟩) = false :=
  ⟨rfl, rfl, rfl, rfl, rfl, by decide, by decide, by decide, by decide, by decide, by decide⟩

/-- C5 counterexample: a stored replacement consisting of a single newline is
empty after trimming, yet createFix still produces an edit (truthiness is
checked before trimming), so the fix is not rejected. -/
theorem createFix_trailing_newline_only_still_edits :
    stripTrailingNewlines "\n" = "" ∧
    (createFix ⟨fullLineRange 4, "DevSentinel: x", Severity.warning,
      some "DevSentinel", some "\n"⟩).edit =
      some (fullLineRange 4, "") ∧
    (createFix ⟨fullLineRange 4, "DevSentinel: x", Severity.warning,
      some "DevSentinel", some "\n"⟩).edit ≠ none := by
  refine ⟨by decide, by decide, by decide⟩

/-- C5 (amended): createFix produces no edit exactly when the stored
replacement is absent or the empty string, the test happening before any
trimming; a replacement made only of newline characters still yields an edit
(whose text is then empty). -/
theorem createFix_edit_iff_replacement_truthy (d : Diagnostic) :
    (createFix d).edit = none ↔ (d.code = none ∨ d.code = some "") := by
  rcases hc : d.code with _ | s
  · simp [createFix, hc]
  · by_cases hs : s = "" <;> simp [createFix, hc, hs]

/-- C6: for a truthy (present, non-empty) replacement stashed by the review
or security handler, the quick-fix edit replaces exactly the full anchored
line (the range from column 0 to Number.MAX_VALUE of line line_number - 1)
with the replacement text stripped of trailing newline characters. -/
theorem createFix_rewrites_full_anchored_line
    (c : ReviewComment) (s : String) (hc : c.fixed_code = some s) (hs : s ≠ "") :
    (createFix (reviewDiag c)).edit =
      some (fullLineRange (c.line_number - 1), stripTrailingNewlines s) ∧
    (createFix (securityDiag c)).edit =
      some (fullLineRange (c.line_number - 1), stripTrailingNewlines s) := by
  obtain ⟨ln, sev, sug, fx⟩ := c
  simp only at hc
  subst hc
  constructor <;> simp [createFix, reviewDiag, securityDiag, hs]

/-- C6 witness: the theorem applied to the concrete comment with line_number
5 and fixed code safeEval(x). -/
theorem createFix_rewrites_full_anchored_line_witness :
    (createFix (reviewDiag ⟨5, some "error", "avoid eval", some "safeEval(x)"⟩)).edit =
      some (fullLineRange 4, stripTrailingNewlines "safeEval(x)") :=
  (createFix_rewrites_full_anchored_line ⟨5, some "error", "avoid eval", some "safeEval(x)"⟩
    "safeEval(x)" rfl (by decide)).1

/-- C7: with a configured (truthy) requestTimeout t, the security-scan
handler passes t * 1.5 to the backend call while the review, roast and
complexity handlers pass t unmultiplied. -/
theorem securityScan_timeout_multiplier (t : Nat) (ht : t ≠ 0) :
    securityScanTimeout (some t) = (t : ℚ) * (3 / 2) ∧
    reviewTimeout (some t) = (t : ℚ) ∧
    roastTimeout (some t) = (t : ℚ) ∧
    complexityTimeout (some t) = (t : ℚ) := by
  simp [securityScanTimeout, reviewTimeout, roastTimeout, complexityTimeout, jsOrNum, ht]

/-- C7 witness: at a configured timeout of 120000 ms the security scan uses
180000 ms and the other handlers 120000 ms. -/
theorem securityScan_timeout_multiplier_witness :
    (120000 : Nat) ≠ 0 ∧
    (securityScanTimeout (some 120000) = (120000 : ℚ) * (3 / 2) ∧
     reviewTimeout (some 120000) = (120000 : ℚ) ∧
     roastTimeout (some 120000) = (120000 : ℚ) ∧
     complexityTimeout (some 120000) = (120000 : ℚ)) :=
  ⟨by decide, securityScan_timeout_multiplier 120000 (by decide)⟩

/-- C8: an absent severity defaults to warning on the review path and to
error on the security path; complexity diagnostics are always warnings; a
present severity string error / warning / info / hint maps to the
corresponding level on both comment-carrying paths. -/
theorem severity_default_and_mapping
    (c : ReviewComment) (f : FunctionInfo) (thr : Int) :
    (c.severity = none →
      (reviewDiag c).severity = Severity.warning ∧
      (securityDiag c).severity = Severity.error) ∧
    (complexityDiag thr f).severity = Severity.warning ∧
    (c.severity = some "error" →
      (reviewDiag c).severity = Severity.error ∧
      (securityDiag c).severity = Severity.error) ∧
    (c.severity = some "warning" →
      (reviewDiag c).severity = Severity.warning ∧
      (securityDiag c).severity = Severity.warning) ∧
    (c.severity = some "info" →
      (reviewDiag c).severity = Severity.info ∧
      (securityDiag c).severity = Severity.info) ∧
    (c.severity = some "hint" →
      (reviewDiag c).severity = Severity.hint ∧
      (securityDiag c).severity = Severity.hint) := by
  have hr : (reviewDiag c).severity = mapSeverity (jsOrString c.severity "warning") := rfl
  have hsc : (securityDiag c).severity = mapSeverity (jsOrString c.severity "error") := rfl
  refine ⟨fun h => ?_, rfl, fun h => ?_, fun h => ?_, fun h => ?_, fun h => ?_⟩ <;>
    rw [hr, hsc, h] <;> exact ⟨by decide, by decide⟩

/-- C8 witness: the theorem applied to a comment with no severity field. -/
theorem severity_default_and_mapping_witness :
    (⟨1, none, "x", none⟩ : ReviewComment).severity = none ∧
    ((reviewDiag ⟨1, none, "x", none⟩).severity = Severity.warning ∧
     (securityDiag ⟨1, none, "x", none⟩).severity = Severity.error) :=
  ⟨rfl, (severity_default_and_mapping ⟨1, none, "x", none⟩ ⟨"f", 1, 1, false⟩ 0).1 rfl⟩

/-- C9: the complexity handler creates one diagnostic per function whose
is_complex flag is true and none for the others, anchored at line_number - 1;
concretely, foo (complexity 15, is_complex true, line 7) with threshold 10
yields one diagnostic naming foo, 15 and 10 at line index 6, while bar
(complexity 3, is_complex false) yields none. -/
theorem complexity_flags_only_complex_functions
    (resp : ComplexityResponse) (f : FunctionInfo) (thr : Int) :
    (complexitySuccess [] resp).length =
      (resp.functions.filter (fun g => g.is_complex)).length ∧
    (f.is_complex = true → complexitySuccess [] ⟨[f], thr⟩ = [complexityDiag thr f]) ∧
    (f.is_complex = false → complexitySuccess [] ⟨[f], thr⟩ = []) ∧
    (complexityDiag thr f).range.startLine = f.line_number - 1 ∧
    complexitySuccess [] ⟨[⟨"foo", 7, 15, true⟩, ⟨"bar", 20, 3, false⟩], 10⟩ =
      [complexityDiag 10 ⟨"foo", 7, 15, true⟩] ∧
    strIncludes (complexityDiag 10 ⟨"foo", 7, 15, true⟩).message "foo" = true ∧
    strIncludes (complexityDiag 10 ⟨"foo", 7, 15, true⟩).message "15" = true ∧
    strIncludes (complexityDiag 10 ⟨"foo", 7, 15, true⟩).message "10" = true ∧
    (complexityDiag 10 ⟨"foo", 7, 15, true⟩).range.startLine = 6 := by
  refine ⟨?_, fun h => ?_, fun h => ?_, rfl, by decide, by decide, by decide, by decide, by decide⟩
  · simp [complexitySuccess]
  · simp [complexitySuccess, h]
  · simp [complexitySuccess, h]

/-- C9 witness: the theorem applied to the complex function foo. -/
theorem complexity_flags_only_complex_functions_witness :
    (⟨"foo", 7, 15, true⟩ : FunctionInfo).is_complex = true ∧
    complexitySuccess [] ⟨[⟨"foo", 7, 15, true⟩], 10⟩ =
      [complexityDiag 10 ⟨"foo", 7, 15, true⟩] :=
  ⟨rfl, (complexity_flags_only_complex_functions ⟨[], 0⟩ ⟨"foo", 7, 15, true⟩ 10).2.1 rfl⟩

/-- C10: eviction is decided by message substring. A ledger entry survives a
security scan exactly when its message lacks [SECURITY] (or it coincides with
a new entry), likewise for [COMPLEXITY] under a complexity run; consequently
a plain review diagnostic whose suggestion happens to contain [SECURITY] is
security-tagged and gets evicted by a later security scan. -/
theorem eviction_by_message_substring
    (ledger : List Diagnostic) (comments : List ReviewComment)
    (resp : ComplexityResponse) :
    (∀ d ∈ ledger, (d ∈ securityScanSuccess ledger comments ↔
      isSecurityTagged d = false ∨ d ∈ comments.map securityDiag)) ∧
    (∀ d ∈ ledger, (d ∈ complexitySuccess ledger resp ↔
      isComplexityTagged d = false ∨
        d ∈ (resp.functions.filter (fun f => f.is_complex)).map
          (complexityDiag resp.threshold))) ∧
    (reviewDiag ⟨2, none, "never log [SECURITY] headers", none⟩ ∈
       reviewSuccess [] [⟨2, none, "never log [SECURITY] headers", none⟩] ∧
     isSecurityTagged (reviewDiag ⟨2, none, "never log [SECURITY] headers", none⟩) = true ∧
     reviewDiag ⟨2, none, "never log [SECURITY] headers", none⟩ ∉
       securityScanSuccess
         (reviewSuccess [] [⟨2, none, "never log [SECURITY] headers", none⟩]) []) := by
  refine ⟨?_, ?_, by decide, by decide, by decide⟩
  · intro d hd
    simp [securityScanSuccess, isSecurityTagged, List.mem_append, List.mem_filter, hd]
  · intro d hd
    simp [complexitySuccess, isComplexityTagged, List.mem_append, List.mem_filter, hd]

/-- C10 witness: the security conjunct applied to a concrete one-entry
ledger and an empty response. -/
theorem eviction_by_message_substring_witness :
    reviewDiag ⟨2, none, "use const", none⟩ ∈ [reviewDiag ⟨2, none, "use const", none⟩] ∧
    (reviewDiag ⟨2, none, "use const", none⟩ ∈
        securityScanSuccess [reviewDiag ⟨2, none, "use const", none⟩] [] ↔
      isSecurityTagged (reviewDiag ⟨2, none, "use const", none⟩) = false ∨
        reviewDiag ⟨2, none, "use const", none⟩ ∈
          List.map securityDiag ([] : List ReviewComment)) :=
  ⟨by decide,
   (eviction_by_message_substring [reviewDiag ⟨2, none, "use const", none⟩] [] ⟨[], 0⟩).1 _
     (by decide)⟩

end DevSentinel
